import Mathlib

/-!
Shallow embedding of the request-parsing pipeline and dataset layer of the
telegram-coronabot repository (src/core.py), together with theorems settling
the specification claims about it.

Datetimes are modelled as natural numbers counting seconds from a fixed epoch;
this is the resolution the code's own interval normalization works at
(`datetime.timedelta(1, -1)` is exactly 86399 seconds, and the comment in
`Interval.__init__` reads "Always consider the start at 00:00:00 and push the
end to 23:59:59").  A calendar day is a block of 86400 consecutive seconds.
-/

namespace Coronabot

/-- Number of seconds in one calendar day. -/
def secondsPerDay : Nat := 86400

/-- Embeds the local helper `copy_date` of `Interval.__init__` (src/core.py:65):
`datetime.datetime(d.year, d.month, d.day)` truncates a datetime to the first
instant (midnight) of its calendar day. -/
def copy_date (d : Nat) : Nat := secondsPerDay * (d / secondsPerDay)

/-- Embeds `Location` (src/core.py:23-26): a name and a level string
(`stato` / `regione` / `provincia`). -/
structure Location where
  name : String
  level : String
deriving Repr, DecidableEq

/-- Embeds `Location.resolve_alias` (src/core.py:28-39): if the name is a key of
the alias dictionary return the mapped standard name, otherwise return the name
unchanged.  The Python dict is modelled as an association list with the usual
first-match lookup (a dict has unique keys, for which the two coincide). -/
def Location.resolve_alias (lname : String) (aliases : List (String × String)) : String :=
  match aliases.lookup lname with
  | some std => std
  | none => lname

/-- Embeds `Interval` (src/core.py:50-91): a date interval with both endpoints
included, stored as datetimes (here: seconds). -/
structure Interval where
  start : Nat
  end_ : Nat
deriving Repr, DecidableEq

/-- Embeds `Interval.__init__` (src/core.py:57-68): the start is truncated to
00:00:00 of its calendar day and the end is pushed to 23:59:59 of its calendar
day (`copy_date(date_end) + datetime.timedelta(1, -1)`). -/
def Interval.mk' (date_start date_end : Nat) : Interval :=
  { start := copy_date date_start, end_ := copy_date date_end + secondsPerDay - 1 }

/-- Embeds `Interval.length` (src/core.py:70-75): `self.end - self.start`, a
`timedelta` which may be negative, hence an integer. -/
def Interval.length (i : Interval) : Int := (i.end_ : Int) - (i.start : Int)

/-- Embeds `Interval.is_single_day` (src/core.py:77-82):
`self.length() < datetime.timedelta(1)`. -/
def Interval.is_single_day (i : Interval) : Bool :=
  decide (i.length < (secondsPerDay : Int))

/-- Embeds `Interval.__contains__` (src/core.py:84-91):
`(self.start <= date) and (date <= self.end)`. -/
def Interval.contains (i : Interval) (date : Nat) : Bool :=
  decide (i.start ≤ date) && decide (date ≤ i.end_)

/-- C3: for day-granularity dates d1 ≤ d2, both endpoints are contained in
`Interval(d1, d2)` (inclusive membership); `Interval(d1, d1)` is a single day;
and `Interval(d1, d2)` is not a single day whenever d2 is at least one day
after d1. -/
theorem interval_endpoints_and_single_day (d1 d2 : Nat)
    (h1 : d1 % secondsPerDay = 0) (h2 : d2 % secondsPerDay = 0) (hle : d1 ≤ d2) :
    (Interval.mk' d1 d2).contains d1 = true ∧
    (Interval.mk' d1 d2).contains d2 = true ∧
    (Interval.mk' d1 d1).is_single_day = true ∧
    (d1 + secondsPerDay ≤ d2 → (Interval.mk' d1 d2).is_single_day = false) := by
  simp only [Interval.mk', Interval.contains, Interval.is_single_day, Interval.length,
    copy_date, secondsPerDay] at *
  refine ⟨?_, ?_, ?_, ?_⟩
  · simp only [Bool.and_eq_true, decide_eq_true_eq]
    omega
  · simp only [Bool.and_eq_true, decide_eq_true_eq]
    omega
  · simp only [decide_eq_true_eq]
    push_cast
    omega
  · intro h
    simp only [decide_eq_false_iff_not]
    push_cast
    omega

/-- Witness for `interval_endpoints_and_single_day` at d1 = 0, d2 = 86400. -/
theorem interval_endpoints_and_single_day_witness :
    (Interval.mk' 0 86400).contains 0 = true ∧
    (Interval.mk' 0 86400).contains 86400 = true ∧
    (Interval.mk' 0 0).is_single_day = true ∧
    (0 + secondsPerDay ≤ 86400 → (Interval.mk' 0 86400).is_single_day = false) := by
  have h := interval_endpoints_and_single_day 0 86400 (by decide) (by decide) (by decide)
  exact h

/-- C6 counterexample: the Interval constructor does not enforce start ≤ end
for every pair of datetimes.  Constructing from day 1 (second 86400) down to
day 0 yields start = 86400 but end = 86399, a negative-length interval, so the
claim quantified over every pair of datetimes is false. -/
theorem interval_reversed_pair_counterexample :
    (Interval.mk' 86400 0).start = 86400 ∧
    (Interval.mk' 86400 0).end_ = 86399 ∧
    ¬ (Interval.mk' 86400 0).start ≤ (Interval.mk' 86400 0).end_ := by
  refine ⟨rfl, rfl, by decide⟩

/-- C6 amended: for every pair of datetimes (ds, de) whose calendar day of ds
is not after the calendar day of de, the constructed interval satisfies
start ≤ end, the start is the first instant of ds's day, the end is the last
instant (second) of de's day, and every datetime on de's calendar day that is
on or after start is contained in the interval. -/
theorem interval_construction_normalized (ds de : Nat)
    (hday : ds / secondsPerDay ≤ de / secondsPerDay) :
    (Interval.mk' ds de).start ≤ (Interval.mk' ds de).end_ ∧
    (Interval.mk' ds de).start = copy_date ds ∧
    (Interval.mk' ds de).end_ = copy_date de + (secondsPerDay - 1) ∧
    (∀ t : Nat, t / secondsPerDay = de / secondsPerDay →
      (Interval.mk' ds de).start ≤ t → (Interval.mk' ds de).contains t = true) := by
  unfold Interval.mk' Interval.contains copy_date secondsPerDay at *
  dsimp only at *
  refine ⟨by omega, by omega, by omega, ?_⟩
  intro t ht hst
  simp only [Bool.and_eq_true, decide_eq_true_eq]
  omega

/-- Witness for `interval_construction_normalized` at ds = 0, de = 86400,
t = 100000 (a datetime in the middle of de's day). -/
theorem interval_construction_normalized_witness :
    (Interval.mk' 0 86400).start ≤ (Interval.mk' 0 86400).end_ ∧
    (Interval.mk' 0 86400).contains 100000 = true := by
  have h := interval_construction_normalized 0 86400 (by decide)
  exact ⟨h.1, h.2.2.2 100000 (by decide) (by decide)⟩

/-- If an association-list lookup finds a value, the corresponding pair is a
member of the list. -/
theorem lookup_mem {l : List (String × String)} {k v : String}
    (h : l.lookup k = some v) : (k, v) ∈ l := by
  induction l with
  | nil => simp [List.lookup] at h
  | cons kv rest ih =>
    obtain ⟨k1, v1⟩ := kv
    by_cases hk : k = k1
    · subst hk
      simp [List.lookup] at h
      subst h
      exact List.mem_cons_self _ _
    · have hne : (k == k1) = false := beq_false_of_ne hk
      simp only [List.lookup, hne] at h
      exact List.mem_cons_of_mem _ (ih h)

/-- C8 counterexample: alias resolution is not idempotent for every alias
mapping.  With the mapping a ↦ b, b ↦ c, resolving "a" once gives "b" but
resolving twice gives "c". -/
theorem resolve_alias_not_idempotent_counterexample :
    Location.resolve_alias "a" [("a", "b"), ("b", "c")] = "b" ∧
    Location.resolve_alias (Location.resolve_alias "a" [("a", "b"), ("b", "c")])
      [("a", "b"), ("b", "c")] = "c" ∧
    ("c" : String) ≠ "b" := by
  refine ⟨rfl, rfl, by decide⟩

/-- C8 amended: alias resolution is idempotent for every alias mapping in which
no mapped-to (canonical) name is itself an alias of a different name — i.e.
every value of the mapping, looked up as a key, is either absent or maps to
itself; and every name absent from the mapping passes through unchanged. -/
theorem resolve_alias_idempotent (aliases : List (String × String))
    (hcanon : ∀ kv ∈ aliases, aliases.lookup kv.2 = none ∨ aliases.lookup kv.2 = some kv.2) :
    ∀ name : String,
      Location.resolve_alias (Location.resolve_alias name aliases) aliases =
        Location.resolve_alias name aliases ∧
      (aliases.lookup name = none → Location.resolve_alias name aliases = name) := by
  intro name
  constructor
  · unfold Location.resolve_alias
    cases hl : aliases.lookup name with
    | none => simp [hl]
    | some v =>
      have hmem : (name, v) ∈ aliases := lookup_mem hl
      rcases hcanon (name, v) hmem with h | h
      · simp [h]
      · simp [h]
  · intro h
    unfold Location.resolve_alias
    simp [h]

/-- Witness for `resolve_alias_idempotent` with the mapping alias ↦ canon and
the names "alias" (mapped) and "free" (absent). -/
theorem resolve_alias_idempotent_witness :
    (Location.resolve_alias (Location.resolve_alias "alias" [("alias", "canon")])
        [("alias", "canon")] =
      Location.resolve_alias "alias" [("alias", "canon")]) ∧
    Location.resolve_alias "free" [("alias", "canon")] = "free" := by
  have h := resolve_alias_idempotent [("alias", "canon")] (by decide)
  exact ⟨(h "alias").1, (h "free").2 (by decide)⟩

/-- Embeds `InfectionDataset` (src/core.py:126-150): a location, an interval,
and a dict of parallel arrays keyed by stat name, with the date array stored
under the mandatory key "data".  The dict is modelled as an association list;
array elements are naturals (dates are stored as epoch seconds, stats as
counts — only ordering and length are relevant to the claims). -/
structure InfectionDataset where
  location : Location
  interval : Interval
  data : List (String × List Nat)
deriving Repr, DecidableEq

/-- Embeds `InfectionDataset.__init__` (src/core.py:135-150): fails if the key
"data" is absent, fails if any array's length differs from the date array's
length, and otherwise stores the dict unchanged. -/
def InfectionDataset.init (location : Location) (interval : Interval)
    (data : List (String × List Nat)) : Except String InfectionDataset :=
  match data.lookup "data" with
  | none => .error "Dataset has no associated dates"
  | some dates =>
    if data.any (fun kv => kv.2.length != dates.length) then
      .error "Dataset data sizes are inconsistent"
    else
      .ok ⟨location, interval, data⟩

/-- Embeds the `dates` property (src/core.py:152-155): `self.data['data']`. -/
def InfectionDataset.dates (ds : InfectionDataset) : List Nat :=
  (ds.data.lookup "data").getD []

/-- Embeds `__len__` (src/core.py:188-189): `len(self.dates)`. -/
def InfectionDataset.len (ds : InfectionDataset) : Nat := ds.dates.length

/-- Embeds `__getitem__` (src/core.py:191-192): `self.data[item]` (a missing
key, Python's KeyError, is modelled as `none`). -/
def InfectionDataset.getItem (ds : InfectionDataset) (item : String) :
    Option (List Nat) := ds.data.lookup item

/-- Python dict assignment `d[key] = value` on an association list with unique
keys: replace the value at the first occurrence of the key, or append the pair
if the key is absent (dict insertion order). -/
def dictSet (d : List (String × List Nat)) (k : String) (v : List Nat) :
    List (String × List Nat) :=
  match d with
  | [] => [(k, v)]
  | kv :: rest => if kv.1 = k then (k, v) :: rest else kv :: dictSet rest k v

/-- Embeds `__setitem__` (src/core.py:194-197): reject the new array if its
length differs from the dataset length, otherwise store it under the key. -/
def InfectionDataset.setItem (ds : InfectionDataset) (key : String)
    (value : List Nat) : Except String InfectionDataset :=
  if value.length != ds.len then
    .error "Length of provided data does not match with dataset size."
  else
    .ok { ds with data := dictSet ds.data key value }

/-- The parallel-array invariant of the spec: the date array is present and
every array in the dict has the date array's length. -/
def InfectionDataset.wellFormed (ds : InfectionDataset) : Prop :=
  ∃ dates, ds.data.lookup "data" = some dates ∧
    ∀ kv ∈ ds.data, kv.2.length = dates.length

/-- Looking up the assigned key after a dict assignment yields the new value. -/
theorem dictSet_lookup_self (d : List (String × List Nat)) (k : String)
    (v : List Nat) : (dictSet d k v).lookup k = some v := by
  induction d with
  | nil => simp [dictSet, List.lookup]
  | cons kv rest ih =>
    by_cases hk : kv.1 = k
    · simp [dictSet, hk, List.lookup]
    · have hne : (k == kv.1) = false := beq_false_of_ne (fun h => hk h.symm)
      simp only [dictSet, hk, if_false, List.lookup, hne]
      exact ih

/-- Looking up any other key after a dict assignment is unchanged. -/
theorem dictSet_lookup_ne (d : List (String × List Nat)) (k k2 : String)
    (v : List Nat) (h : k2 ≠ k) :
    (dictSet d k v).lookup k2 = d.lookup k2 := by
  induction d with
  | nil => simp [dictSet, List.lookup, beq_false_of_ne h]
  | cons kv rest ih =>
    by_cases hk : kv.1 = k
    · have hne : (k2 == k) = false := beq_false_of_ne h
      have hne2 : (k2 == kv.1) = false := beq_false_of_ne (hk ▸ h)
      simp only [dictSet, hk, if_true, List.lookup, hne, hne2]
    · simp only [dictSet, hk, if_false, List.lookup]
      cases hbeq : (k2 == kv.1) with
      | true => rfl
      | false => exact ih

/-- Every entry of the dict after an assignment is either the assigned pair or
an original entry. -/
theorem dictSet_mem (d : List (String × List Nat)) (k : String) (v : List Nat) :
    ∀ kv2 ∈ dictSet d k v, kv2 = (k, v) ∨ kv2 ∈ d := by
  induction d with
  | nil =>
    intro kv2 h
    simp [dictSet] at h
    exact Or.inl h
  | cons kv rest ih =>
    intro kv2 h
    by_cases hk : kv.1 = k
    · simp only [dictSet, hk, if_true] at h
      rcases List.mem_cons.mp h with h | h
      · exact Or.inl h
      · exact Or.inr (List.mem_cons_of_mem _ h)
    · simp only [dictSet, hk, if_false] at h
      rcases List.mem_cons.mp h with h | h
      · exact Or.inr (h ▸ List.mem_cons_self _ _)
      · rcases ih kv2 h with h2 | h2
        · exact Or.inl h2
        · exact Or.inr (List.mem_cons_of_mem _ h2)

/-- C4: dataset construction fails if the mandatory date field is absent or if
any array's length differs from the date array's length, and otherwise stores
all arrays unchanged and establishes the parallel-array invariant; field
assignment succeeds exactly when the new array's length equals the dataset
length, in which case the invariant is preserved, and fails otherwise (the
failing assignment produces no new dataset, so the dataset is unchanged). -/
theorem dataset_parallel_array_invariant :
    ∀ (loc : Location) (itv : Interval) (data : List (String × List Nat)),
      (data.lookup "data" = none →
        InfectionDataset.init loc itv data = .error "Dataset has no associated dates") ∧
      (∀ dates, data.lookup "data" = some dates →
        ((∃ kv ∈ data, kv.2.length ≠ dates.length) →
          InfectionDataset.init loc itv data = .error "Dataset data sizes are inconsistent") ∧
        ((∀ kv ∈ data, kv.2.length = dates.length) →
          InfectionDataset.init loc itv data = .ok ⟨loc, itv, data⟩ ∧
          InfectionDataset.wellFormed ⟨loc, itv, data⟩)) ∧
      (∀ (ds : InfectionDataset) (k : String) (v : List Nat),
        InfectionDataset.wellFormed ds →
        (v.length ≠ ds.len →
          InfectionDataset.setItem ds k v =
            .error "Length of provided data does not match with dataset size.") ∧
        (v.length = ds.len →
          InfectionDataset.setItem ds k v = .ok { ds with data := dictSet ds.data k v } ∧
          InfectionDataset.wellFormed { ds with data := dictSet ds.data k v })) := by
  intro loc itv data
  refine ⟨?_, ?_, ?_⟩
  · intro h
    simp [InfectionDataset.init, h]
  · intro dates hl
    constructor
    · intro ⟨kv, hmem, hne⟩
      have hany : data.any (fun kv => kv.2.length != dates.length) = true := by
        rw [List.any_eq_true]
        exact ⟨kv, hmem, bne_iff_ne.mpr hne⟩
      simp [InfectionDataset.init, hl, hany]
    · intro hall
      have hany : data.any (fun kv => kv.2.length != dates.length) = false := by
        rw [List.any_eq_false]
        intro kv hmem
        simp only [bne_iff_ne, ne_eq, not_not]
        exact hall kv hmem
      refine ⟨by simp [InfectionDataset.init, hl, hany], dates, hl, hall⟩
  · intro ds k v hwf
    obtain ⟨dates, hdl, hall⟩ := hwf
    have hlen : ds.len = dates.length := by
      simp [InfectionDataset.len, InfectionDataset.dates, hdl]
    constructor
    · intro hne
      simp [InfectionDataset.setItem, bne_iff_ne.mpr hne]
    · intro heq
      have hbne : (v.length != ds.len) = false := by
        simp [heq]
      refine ⟨by simp [InfectionDataset.setItem, hbne], ?_⟩
      by_cases hk : k = "data"
      · subst hk
        refine ⟨v, dictSet_lookup_self ds.data "data" v, ?_⟩
        intro kv2 hmem
        rcases dictSet_mem ds.data "data" v kv2 hmem with h | h
        · rw [h]
        · rw [hall kv2 h, ← hlen, ← heq]
      · refine ⟨dates, ?_, ?_⟩
        · rw [dictSet_lookup_ne ds.data k "data" v (fun h => hk h.symm)]
          exact hdl
        · intro kv2 hmem
          rcases dictSet_mem ds.data k v kv2 hmem with h | h
          · rw [h]
            rw [heq, hlen]
          · exact hall kv2 h

/-- Witness for `dataset_parallel_array_invariant`: a concrete two-column
dataset is constructed successfully and stored unchanged, and a wrong-length
field assignment on it is rejected. -/
theorem dataset_parallel_array_invariant_witness :
    InfectionDataset.init ⟨"italia", "stato"⟩ (Interval.mk' 0 0)
        [("data", [0, 86400]), ("tamponi", [5, 7])] =
      .ok ⟨⟨"italia", "stato"⟩, Interval.mk' 0 0,
        [("data", [0, 86400]), ("tamponi", [5, 7])]⟩ ∧
    InfectionDataset.setItem
        ⟨⟨"italia", "stato"⟩, Interval.mk' 0 0,
          [("data", [0, 86400]), ("tamponi", [5, 7])]⟩ "nuovi" [1] =
      .error "Length of provided data does not match with dataset size." := by
  have h := dataset_parallel_array_invariant ⟨"italia", "stato"⟩ (Interval.mk' 0 0)
    [("data", [0, 86400]), ("tamponi", [5, 7])]
  refine ⟨((h.2.1 [0, 86400] rfl).2 (by decide)).1, ?_⟩
  exact (h.2.2 ⟨⟨"italia", "stato"⟩, Interval.mk' 0 0,
    [("data", [0, 86400]), ("tamponi", [5, 7])]⟩ "nuovi" [1]
    ⟨[0, 86400], rfl, by decide⟩).1 (by decide)

/-- Index array produced by `np.where` in `get_data` (src/core.py:185): the
code passes a generator expression — `date in interval for date in self.dates`
— rather than a list comprehension, so `np.where` receives a single generator
object, not an element-wise boolean mask.  numpy wraps that object in a
0-dimensional object array, and `nonzero` of a truthy 0-dimensional array is
the single index 0 (numpy's legacy scalar behavior, already a deprecation
warning when this code was written), irrespective of the dates and the
interval. -/
def np_where_generator_indices : List Nat := [0]

/-- Embeds `InfectionDataset.get_data` (src/core.py:184-186) faithfully,
including its defect: `indices = np.where(<generator>)` is the constant index
array `[0]`, and fancy-indexing `self[stat][indices]` returns the one-element
array holding the stat's first value, whatever the interval. -/
def InfectionDataset.get_data (ds : InfectionDataset) (stat : String)
    (interval : Interval) : List Nat :=
  np_where_generator_indices.filterMap (fun i => ((ds.getItem stat).getD []).get? i)

/-- Behavior the specification ascribes to `get_data` (and that the enclosing
`download` method implements for its own filtering with a list comprehension at
src/core.py:173): the subsequence of `series[stat]` whose aligned dates — same
index in the mandatory date array — lie inside the interval, in the original
order. -/
def InfectionDataset.get_data_spec (ds : InfectionDataset) (stat : String)
    (interval : Interval) : List Nat :=
  (ds.dates.zip ((ds.getItem stat).getD [])).filterMap
    (fun p => if interval.contains p.1 then some p.2 else none)

/-- Concrete dataset exhibiting the `get_data` defect: dates day 0 and day 1,
stat values 10 and 20, with the date outside the queried interval placed
first. -/
def get_data_example_dataset : InfectionDataset :=
  ⟨⟨"italia", "stato"⟩, Interval.mk' 0 86400, [("data", [0, 86400]), ("tamponi", [10, 20])]⟩

/-- C2: on a dataset whose first date lies outside the queried one-day
interval, `get_data` returns the stat's first value `[10]` instead of the
subsequence `[20]` aligned with the dates inside the interval — the code's
generator-to-`np.where` slip makes the interval argument irrelevant. -/
theorem get_data_ignores_interval :
    InfectionDataset.get_data get_data_example_dataset "tamponi"
        (Interval.mk' 86400 86400) = [10] ∧
    InfectionDataset.get_data_spec get_data_example_dataset "tamponi"
        (Interval.mk' 86400 86400) = [20] ∧
    InfectionDataset.get_data get_data_example_dataset "tamponi"
        (Interval.mk' 86400 86400) ≠
      InfectionDataset.get_data_spec get_data_example_dataset "tamponi"
        (Interval.mk' 86400 86400) := by
  refine ⟨rfl, by decide, by decide⟩

/-- Outcome of a concrete parser's `convert` method (src/core.py:252-259):
either a converted value, a raised `Parser.ConversionError` carrying a payload
ε, or any other raised exception carrying its message (the payload of the
generic `except Exception` branch of `parse`). -/
inductive ConvertOutcome (ε α : Type) where
  | ok : α → ConvertOutcome ε α
  | conversionError : ε → ConvertOutcome ε α
  | otherError : String → ConvertOutcome ε α
deriving Repr, DecidableEq

/-- State of a `Parser` instance (src/core.py:200-213): the stored `_result`,
the `status` flag, and the last `error` message. -/
structure ParserState (α : Type) where
  _result : Option α
  status : Bool
  error : Option String
deriving Repr, DecidableEq

/-- Embeds `Parser.__init__` (src/core.py:209-213): `_result = None`,
`status = False`, `error = None`. -/
def Parser.initState {α : Type} : ParserState α := ⟨none, false, none⟩

/-- Embeds the guarded `result` property (src/core.py:215-226): the stored
value is returned only when status is success; otherwise `Parser.ParserError`
is raised, modelled as the error branch of an `Except`. -/
def ParserState.result {α : Type} (st : ParserState α) : Except String (Option α) :=
  match st.status with
  | true => .ok st._result
  | false => .error "Cannot get results because an error occurred during conversion"

/-- Result of one call to `Parser.parse` (src/core.py:228-250): either a normal
return of the status flag together with the instance state after the call, or
a raised `Parser.ParserError` together with the state at the moment of
raising. -/
inductive ParseOutcome (α : Type) where
  | returned : Bool → ParserState α → ParseOutcome α
  | raised : String → ParserState α → ParseOutcome α
deriving Repr, DecidableEq

/-- Instance state after a `parse` call, whether it returned or raised. -/
def ParseOutcome.state {α : Type} : ParseOutcome α → ParserState α
  | .returned _ st => st
  | .raised _ st => st

/-- Embeds `Parser.parse` (src/core.py:228-250) with the subclass methods
`convert` and `make_error_message` passed explicitly.  On success the value is
stored and status set; on a `ConversionError` the rendered message is stored
and status stays failure; on any other exception the raw exception payload is
stored and a fresh `Parser.ParserError` is raised. -/
def Parser.parse {ε α : Type} (convert : String → ConvertOutcome ε α)
    (make_error_message : ε → String → String) (st : ParserState α)
    (string : String) : ParseOutcome α :=
  match convert string with
  | .ok v => .returned true { st with _result := some v, status := true }
  | .conversionError e =>
      .returned false { st with status := false, error := some (make_error_message e string) }
  | .otherError m =>
      .raised "An error occurred during parsing" { st with status := false, error := some m }

/-- State of a parser instance after a sequence of `parse` calls (the instance
keeps its state whether each call returned or raised). -/
def Parser.runParses {ε α : Type} (convert : String → ConvertOutcome ε α)
    (make_error_message : ε → String → String) :
    ParserState α → List String → ParserState α
  | st, [] => st
  | st, s :: rest =>
      Parser.runParses convert make_error_message
        ((Parser.parse convert make_error_message st s).state) rest

/-- C7: reading `result` while status is failure — before any parse, after a
recognized conversion failure, and after an escalated failure, even when an
earlier parse on the same instance succeeded and stored a value — yields the
invalid-state error, never a stale or partial value; when status is success it
returns the value stored by the most recent parse call. -/
theorem parser_result_guard {ε α : Type} (convert : String → ConvertOutcome ε α)
    (mk : ε → String → String) (prior : List String) (s : String) :
    (Parser.initState (α := α)).result =
      .error "Cannot get results because an error occurred during conversion" ∧
    (∀ e, convert s = .conversionError e →
      ((Parser.parse convert mk (Parser.runParses convert mk Parser.initState prior) s).state).result =
        .error "Cannot get results because an error occurred during conversion") ∧
    (∀ m, convert s = .otherError m →
      ((Parser.parse convert mk (Parser.runParses convert mk Parser.initState prior) s).state).result =
        .error "Cannot get results because an error occurred during conversion") ∧
    (∀ v, convert s = .ok v →
      ((Parser.parse convert mk (Parser.runParses convert mk Parser.initState prior) s).state).result =
        .ok (some v)) := by
  refine ⟨rfl, ?_, ?_, ?_⟩ <;> intro x hx <;>
    simp [Parser.parse, hx, ParseOutcome.state, ParserState.result]

/-- Convert method used to exercise `parser_result_guard`: succeeds on the
input "buono" with value 37 and fails with a conversion error otherwise. -/
def sampleConvert : String → ConvertOutcome Nat Nat := fun t =>
  if t = "buono" then .ok 37 else .conversionError 0

/-- Message renderer used to exercise `parser_result_guard`. -/
def sampleRender : Nat → String → String := fun _ _ => "messaggio"

/-- Witness for `parser_result_guard`: after a successful parse of "buono"
stored value 37, a failed parse of "cattivo" makes `result` yield the guard
error, and a renewed successful parse yields the freshly stored value. -/
theorem parser_result_guard_witness :
    ((Parser.parse sampleConvert sampleRender
        (Parser.runParses sampleConvert sampleRender Parser.initState ["buono"])
        "cattivo").state).result =
      .error "Cannot get results because an error occurred during conversion" ∧
    ((Parser.parse sampleConvert sampleRender
        (Parser.runParses sampleConvert sampleRender Parser.initState ["buono"])
        "buono").state).result = .ok (some 37) := by
  refine ⟨(parser_result_guard sampleConvert sampleRender ["buono"] "cattivo").2.1 0 (by decide),
    (parser_result_guard sampleConvert sampleRender ["buono"] "buono").2.2.2 37 (by decide)⟩

/-- Observable outcome of running one sub-parser instance on its field inside
`ComposedParser.convert` (src/core.py:314-319): its `parse` returned True with
a stored result, returned False with a rendered error message, or itself
raised a framework error that escalates out of the sub-parser. -/
inductive SubOutcome (α : Type) where
  | ok : α → SubOutcome α
  | fail : String → SubOutcome α
  | raise : String → SubOutcome α
deriving Repr, DecidableEq

/-- Aggregate outcome of the sub-parser loop of `ComposedParser.convert`:
all sub-results, or the `Parser.ConversionError(i, field, error)` payload of
the first failure, or an escalated framework error. -/
inductive SubsResult (α : Type) where
  | ok : List α → SubsResult α
  | convError : Nat → String → String → SubsResult α
  | escalated : String → SubsResult α
deriving Repr, DecidableEq

/-- Embeds the loop of `ComposedParser.convert` (src/core.py:313-319): run each
sub-parser on its corresponding field in list order, recording the indices of
the sub-parsers actually invoked, and stop at the first failure.  When either
list runs out the loop ends (Python's `zip`). -/
def runSubs {α : Type} (subparsers : List (String → SubOutcome α))
    (fields : List String) (i : Nat) : List Nat × SubsResult α :=
  match subparsers, fields with
  | sp :: sps, f :: fs =>
    match sp f with
    | .ok v =>
      let r := runSubs sps fs (i + 1)
      (i :: r.1, match r.2 with
        | .ok vs => .ok (v :: vs)
        | .convError j g m => .convError j g m
        | .escalated m => .escalated m)
    | .fail m => ([i], .convError i f m)
    | .raise m => ([i], .escalated m)
  | _, _ => ([], .ok [])

/-- Message of the `Parser.ParserError` raised by `ComposedParser.convert`
when the split yields a wrong number of fields (src/core.py:312). -/
def fieldCountMsg (nfields nsubs : Nat) : String :=
  "Cannot parse " ++ toString nfields ++ " fields with " ++ toString nsubs ++ " parsers."

/-- Embeds `ComposedParser.convert` (src/core.py:309-320) with the concrete
`split`, the sub-parser behaviors, and `reduce` passed explicitly.  The first
component records which sub-parsers were invoked.  A raised exception inside
`split` and the field-count mismatch `Parser.ParserError` both surface as
non-ConversionError exceptions (`otherError`). -/
def ComposedParser.convert {α β : Type} (subparsers : List (String → SubOutcome α))
    (split : String → Except String (List String)) (reduce : List α → β)
    (string : String) : List Nat × ConvertOutcome (Nat × String × String) β :=
  match split string with
  | .error e => ([], .otherError e)
  | .ok fields =>
    if fields.length ≠ subparsers.length then
      ([], .otherError (fieldCountMsg fields.length subparsers.length))
    else
      match runSubs subparsers fields 0 with
      | (inv, .ok results) => (inv, .ok (reduce results))
      | (inv, .convError i f m) => (inv, .conversionError (i, f, m))
      | (inv, .escalated m) => (inv, .otherError m)

/-- Embeds `ComposedParser.make_error_message` (src/core.py:325-327): return
`error.args[2]`, the error message generated by the failing sub-parser. -/
def ComposedParser.make_error_message (e : Nat × String × String)
    (string : String) : String := e.2.2

/-- A composed parser's `parse`: `Parser.parse` with `ComposedParser.convert`
and `ComposedParser.make_error_message` plugged in. -/
def ComposedParser.parse {α β : Type} (subparsers : List (String → SubOutcome α))
    (split : String → Except String (List String)) (reduce : List α → β)
    (st : ParserState β) (string : String) : ParseOutcome β :=
  Parser.parse (fun t => (ComposedParser.convert subparsers split reduce t).2)
    ComposedParser.make_error_message st string

/-- C1 counterexample: a composed parser with two sub-parsers whose split
yields one field does not complete `parse` with a rendered field-count
message — the call escalates a framework `Parser.ParserError`, so the
wrong-field-count case is not a recognized-conversion failure. -/
theorem field_count_mismatch_counterexample :
    ComposedParser.parse
        [fun _ => SubOutcome.ok (0 : Nat), fun _ => SubOutcome.ok 0]
        (fun _ => .ok ["campo"]) (fun r => r) Parser.initState "campo" =
      .raised "An error occurred during parsing"
        ⟨none, false, some (fieldCountMsg 1 2)⟩ := by
  rfl

/-- C1 (amended): when the split yields a number of fields different from the
number of sub-parsers, `convert` raises `Parser.ParserError` (src/core.py:312),
which `Parser.parse` treats as an unrecognized exception: the status is set to
failure and the raw field-count message is stored, but the call escalates a
fresh framework `Parser.ParserError` instead of completing with a rendered
field-level message; no sub-parser is invoked. -/
theorem field_count_mismatch_escalates {α β : Type}
    (subparsers : List (String → SubOutcome α))
    (split : String → Except String (List String)) (reduce : List α → β)
    (st : ParserState β) (s : String) (fields : List String)
    (h1 : split s = .ok fields) (h2 : fields.length ≠ subparsers.length) :
    ComposedParser.parse subparsers split reduce st s =
      .raised "An error occurred during parsing"
        { st with status := false,
                  error := some (fieldCountMsg fields.length subparsers.length) } ∧
    (ComposedParser.convert subparsers split reduce s).1 = [] := by
  constructor
  · simp [ComposedParser.parse, ComposedParser.convert, Parser.parse, h1, h2]
  · simp [ComposedParser.convert, h1, h2]

/-- Witness for `field_count_mismatch_escalates`: three fields against two
sub-parsers. -/
theorem field_count_mismatch_escalates_witness :
    ComposedParser.parse
        [fun _ => SubOutcome.ok (0 : Nat), fun _ => SubOutcome.ok 0]
        (fun _ => .ok ["a", "b", "c"]) (fun r => r) Parser.initState "testo" =
      .raised "An error occurred during parsing"
        ⟨none, false, some (fieldCountMsg 3 2)⟩ ∧
    (ComposedParser.convert
        [fun _ => SubOutcome.ok (0 : Nat), fun _ => SubOutcome.ok 0]
        (fun _ => .ok ["a", "b", "c"]) (fun r => r) "testo").1 = [] := by
  have h := field_count_mismatch_escalates
    [fun _ => SubOutcome.ok (0 : Nat), fun _ => SubOutcome.ok 0]
    (fun _ => .ok ["a", "b", "c"]) (fun r => r) Parser.initState "testo"
    ["a", "b", "c"] rfl (by decide)
  exact h

/-- Sub-parser loop lemma: when every sub-parser before position `pre.length`
succeeds on its field and the sub-parser at that position fails with `msg`,
the loop starting at index `k` invokes exactly the indices
`k, k+1, ..., k + pre.length` and stops with the conversion-error payload of
the failing position — the sub-parsers in `post` are never invoked. -/
theorem runSubs_short_circuit {α : Type} (pre : List (String → SubOutcome α))
    (fpre : List String) (p : String → SubOutcome α) (f : String)
    (post : List (String → SubOutcome α)) (fpost : List String) (msg : String)
    (k : Nat) (h1 : pre.length = fpre.length)
    (h2 : ∀ pf ∈ pre.zip fpre, ∃ v, pf.1 pf.2 = SubOutcome.ok v)
    (h3 : p f = SubOutcome.fail msg) :
    runSubs (pre ++ p :: post) (fpre ++ f :: fpost) k =
      (List.range' k (pre.length + 1), .convError (k + pre.length) f msg) := by
  induction pre generalizing fpre k with
  | nil =>
    cases fpre with
    | nil => simp [runSubs, h3, List.range']
    | cons a l => simp at h1
  | cons q pre2 ih =>
    cases fpre with
    | nil => simp at h1
    | cons g fpre2 =>
      obtain ⟨v, hv⟩ := h2 (q, g) (by simp)
      have hv2 : q g = SubOutcome.ok v := hv
      have h1' : pre2.length = fpre2.length := by simpa using h1
      have h2' : ∀ pf ∈ pre2.zip fpre2, ∃ v, pf.1 pf.2 = SubOutcome.ok v := by
        intro pf hpf
        refine h2 pf ?_
        simp [List.zip_cons_cons]
        right
        exact hpf
      have hrec := ih fpre2 (k + 1) h1' h2'
      have hidx : k + 1 + pre2.length = k + (pre2.length + 1) := by omega
      simp only [List.cons_append, runSubs, hv2, List.append_eq, hrec,
        List.length_cons, List.range'_succ, hidx]

/-- C5: the sub-parsers run in list order on their corresponding substrings
and parsing short-circuits: when all sub-parsers before position i succeed and
the one at position i fails, exactly the sub-parsers at indices 0..i are
invoked (those after i never run), and the composed `parse` completes with
failure status, its rendered error message being the failing sub-parser's own
message, unchanged. -/
theorem composed_parse_short_circuit {α β : Type}
    (pre post : List (String → SubOutcome α)) (fpre fpost : List String)
    (p : String → SubOutcome α) (f msg : String) (reduce : List α → β)
    (split : String → Except String (List String)) (st : ParserState β)
    (s : String) (h1 : pre.length = fpre.length) (h2 : post.length = fpost.length)
    (h3 : ∀ pf ∈ pre.zip fpre, ∃ v, pf.1 pf.2 = SubOutcome.ok v)
    (h4 : p f = SubOutcome.fail msg)
    (h5 : split s = .ok (fpre ++ f :: fpost)) :
    (ComposedParser.convert (pre ++ p :: post) split reduce s).1 =
      List.range (pre.length + 1) ∧
    ComposedParser.parse (pre ++ p :: post) split reduce st s =
      .returned false { st with status := false, error := some msg } := by
  have hlen : (fpre ++ f :: fpost).length = (pre ++ p :: post).length := by
    simp [h1, h2]
  have hrun := runSubs_short_circuit pre fpre p f post fpost msg 0 h1 h3 h4
  constructor
  · simp [ComposedParser.convert, h5, hlen, hrun, List.range_eq_range']
  · simp [ComposedParser.parse, Parser.parse, ComposedParser.convert, h5, hlen,
      hrun, ComposedParser.make_error_message]

/-- Witness for `composed_parse_short_circuit`: two sub-parsers, the first
succeeding on "roma" and the second failing on "marte" with its own message;
only indices 0 and 1 are invoked and the composed error is that message. -/
theorem composed_parse_short_circuit_witness :
    (ComposedParser.convert
        [fun t => SubOutcome.ok t.length,
         fun _ => SubOutcome.fail "luogo non valido",
         fun t => SubOutcome.ok t.length]
        (fun _ => .ok ["roma", "marte", "oggi"]) (fun r => r) "testo").1 =
      List.range 2 ∧
    ComposedParser.parse
        [fun t => SubOutcome.ok t.length,
         fun _ => SubOutcome.fail "luogo non valido",
         fun t => SubOutcome.ok t.length]
        (fun _ => .ok ["roma", "marte", "oggi"]) (fun r => r) Parser.initState
        "testo" =
      .returned false ⟨none, false, some "luogo non valido"⟩ := by
  have h := composed_parse_short_circuit
    [fun t => SubOutcome.ok t.length] [fun t => SubOutcome.ok t.length]
    ["roma"] ["oggi"] (fun _ => SubOutcome.fail "luogo non valido")
    "marte" "luogo non valido" (fun r => r)
    (fun _ => .ok ["roma", "marte", "oggi"]) Parser.initState "testo"
    rfl rfl ?_ rfl rfl
  · exact h
  · intro pf hpf
    simp only [List.zip_cons_cons, List.zip_nil_right, List.mem_singleton] at hpf
    subst hpf
    exact ⟨4, rfl⟩

/-- Message of the ValueError raised by Python's fixed-arity tuple unpacking
when the unpacked list is too short. -/
def unpackMsg (expected got : Nat) : String :=
  "not enough values to unpack (expected " ++ toString expected ++ ", got " ++
    toString got ++ ")"

/-- Modelled from the spec: the canonical country name `constants.country`,
loaded from the reference configuration (assets/locations.json, which is not
under src/).  Per the spec the single supported country is Italia (location
tiers, §4.4 and §6), in the lower-case normalized form the parsers compare
against; the trend split substitutes exactly this form (src/core.py:408). -/
def country : String := "italia"

/-- Result list of `re.split(ReportRequestParser.REQUEST_PATTERN, string)`
(src/core.py:393; pattern `^(location)(?:,\s?(date))?$`, src/constants.py:22).
The argument `m` is the outcome of matching the anchored pattern: `none` when
the pattern does not match, otherwise the captured location group (which
always participates in a match) and the optional date group (None when
absent).  On a match `re.split` on a fully-anchored pattern returns
`['', group1, group2, '']` with non-participating groups as None; on no match
it returns the whole string as the single element. -/
def re_split_report (m : Option (String × Option String)) (s : String) :
    List (Option String) :=
  match m with
  | none => [some s]
  | some (location, date) => [some "", some location, date, some ""]

/-- Embeds `ReportRequestParser.split` (src/core.py:392-396): 4-target
unpacking of the split list — raising ValueError when the pattern did not
match and the list is a single element — then substitution of the literal
'oggi' when the date group is None. -/
def ReportRequestParser.split (m : Option (String × Option String))
    (s : String) : Except String (List String) :=
  match re_split_report m s with
  | [_, some location, date, _] => .ok [location, date.getD "oggi"]
  | parts => .error (unpackMsg 4 parts.length)

/-- Result list of `re.split(TrendRequestParser.REQUEST_PATTERN, string)`
(src/core.py:406; pattern `^(stat)(?:,\s?(location))?(?:,\s?(interval))?$`,
src/constants.py:25): as for the report pattern, with three groups of which
the location and interval groups are optional. -/
def re_split_trend (m : Option (String × Option String × Option String))
    (s : String) : List (Option String) :=
  match m with
  | none => [some s]
  | some (stat, location, interval) =>
      [some "", some stat, location, interval, some ""]

/-- Embeds `TrendRequestParser.split` (src/core.py:405-411): 5-target
unpacking of the split list, then substitution of 'italia' for an absent
location group and of '24/02/2020 - oggi' for an absent interval group. -/
def TrendRequestParser.split (m : Option (String × Option String × Option String))
    (s : String) : Except String (List String) :=
  match re_split_trend m s with
  | [_, some stat, location, interval, _] =>
      .ok [stat, location.getD "italia", interval.getD "24/02/2020 - oggi"]
  | parts => .error (unpackMsg 5 parts.length)

/-- Embeds `IntervalParser.split` (src/core.py:348-351): the first `re.split`
searches the interval pattern inside the string and unpacks the result into 3
targets, raising ValueError when the pattern does not occur (the split is the
single-element list holding the whole string); the second `re.split` then
extracts the two date substrings from the matched interval text.  `m` is the
match outcome: the two captured date substrings, or `none` when the interval
pattern does not occur. -/
def IntervalParser.split (m : Option (String × String)) (s : String) :
    Except String (List String) :=
  match m with
  | none => .error (unpackMsg 3 1)
  | some (sdate, edate) => .ok [sdate, edate]

/-- C9 counterexample: with the date group absent, the report split
substitutes the literal substring 'oggi', not the literal substring
"today". -/
theorem report_default_literal_counterexample :
    ReportRequestParser.split (some ("lazio", none)) "lazio" =
      .ok ["lazio", "oggi"] ∧
    (["lazio", "oggi"] : List String) ≠ ["lazio", "today"] := by
  refine ⟨rfl, by decide⟩

/-- C9 (amended): when optional groups are absent from an input that matches
the request pattern, the split substitutes the documented defaults before
sub-parsing: the report request's missing date group is replaced by the
literal substring 'oggi' (Italian for today, so the parsed date defaults to
today); the trend request's missing location group defaults to the country
'italia' and its missing interval group defaults to '24/02/2020 - oggi' — the
fixed epidemic start date through today. -/
theorem absent_group_defaults (location stat s1 s2 : String) :
    ReportRequestParser.split (some (location, none)) s1 =
      .ok [location, "oggi"] ∧
    TrendRequestParser.split (some (stat, none, none)) s2 =
      .ok [stat, country, "24/02/2020 - oggi"] := by
  exact ⟨rfl, rfl⟩

/-- C10: when the concrete request pattern does not match the input, the
report, trend and interval request parsers do not produce a failure status
with a rendered user-facing message: the fixed-arity unpacking inside `split`
raises a ValueError, which `parse` stores raw and re-raises as a framework
`Parser.ParserError`, so a caller that does not pre-filter the input with the
same pattern receives an escalated exception instead of a recognized
failure. -/
theorem unmatched_pattern_escalates {α β : Type}
    (subsR subsT subsI : List (String → SubOutcome α)) (reduce : List α → β)
    (st : ParserState β) (s : String) :
    ComposedParser.parse subsR (ReportRequestParser.split none) reduce st s =
      .raised "An error occurred during parsing"
        { st with status := false, error := some (unpackMsg 4 1) } ∧
    ComposedParser.parse subsT (TrendRequestParser.split none) reduce st s =
      .raised "An error occurred during parsing"
        { st with status := false, error := some (unpackMsg 5 1) } ∧
    ComposedParser.parse subsI (IntervalParser.split none) reduce st s =
      .raised "An error occurred during parsing"
        { st with status := false, error := some (unpackMsg 3 1) } := by
  refine ⟨?_, ?_, ?_⟩ <;>
    simp [ComposedParser.parse, Parser.parse, ComposedParser.convert,
      ReportRequestParser.split, TrendRequestParser.split, IntervalParser.split,
      re_split_report, re_split_trend]

end Coronabot
